import Mathlib

/-!
Shallow embedding of the catalog filtering and aggregation engine of
`src/netflix_app.py` (a Streamlit dashboard over a Netflix titles table).

A pandas dataframe row becomes a `Record`; a dataframe becomes a
`List Record`; a nullable column value becomes an `Option`.  Pandas
`value_counts` (group, count, sort by count descending, drop nulls) is
modelled by `tally` followed by `List.insertionSort`; pandas does not
guarantee the relative order of tied counts (its default sort kind is
quicksort), and no theorem below relies on the order of ties.
-/

/-- One row of the loaded dataframe (`netflix_titles.csv`, line 35).  Raw
column values only; nullable columns are `Option`.  `type` is the
content-type column (`"Movie"` or `"TV Show"` in the data). -/
structure Record where
  title : Option String
  type : String
  release_year : Option Int
  listed_in : Option String
  country : Option String
  rating : Option String
  duration : Option String
deriving DecidableEq

/-- The sidebar filter state: `type_filter` (multiselect, line 47),
`year_filter` (slider, line 53, an inclusive pair), and `rating_filter`
(multiselect, line 61).  The source collects `rating_filter` but the
dataframe filter at lines 70-73 never uses it. -/
structure Criteria where
  type_filter : List String
  year_filter : Int × Int
  rating_filter : List String
deriving DecidableEq

/-- Pandas `Series.between(lo, hi)` on a nullable integer column: inclusive
on both bounds, and false on a null value (line 72). -/
def between (y : Option Int) (lo hi : Int) : Bool :=
  match y with
  | none => false
  | some v => decide (lo ≤ v) && decide (v ≤ hi)

/-- Lines 70-73: `filtered_df = df[(df['type'].isin(type_filter)) &
(df['release_year'].between(year_filter[0], year_filter[1]))]`.  The rating
selection is not part of the mask. -/
def filtered_df (df : List Record) (c : Criteria) : List Record :=
  df.filter (fun r =>
    c.type_filter.contains r.type && between r.release_year c.year_filter.1 c.year_filter.2)

/-- The first contiguous run of decimal digits in a character list, or
`none` when there is no digit: the match of the regex `(\d+)` used by
`str.extract` at line 155. -/
def firstDigitRun : List Char → Option (List Char)
  | [] => none
  | c :: cs => if c.isDigit then some (c :: cs.takeWhile Char.isDigit) else firstDigitRun cs

/-- Decimal value of a digit run. -/
def digitsToNat (ds : List Char) : Nat :=
  ds.foldl (fun a c => 10 * a + (c.toNat - 48)) 0

/-- Line 155: `movies_df['duration'].str.extract('(\d+)').astype(float)` -
the first integer token of the raw duration string, null when the string
is null or has no digit.  (The cast to float is value-preserving here, so
the value is kept as a natural number.) -/
def duration_mins (r : Record) : Option Nat :=
  r.duration.bind (fun s => (firstDigitRun s.data).map digitsToNat)

/-- Line 154: `movies_df = filtered_df[filtered_df['type'] == 'Movie'].copy()`. -/
def movies_df (filtered : List Record) : List Record :=
  filtered.filter (fun r => r.type == "Movie")

/-- The `duration_mins` column as the dashboard derives it record-wise: the
source computes the column only on the movie-only frame (lines 154-155), so
a record whose type is not `"Movie"` never receives a value. -/
def duration_minutes (r : Record) : Option Nat :=
  if r.type == "Movie" then duration_mins r else none

/-- Python `str.split(',')` on the character level: splitting on every
comma, keeping empty segments, one (possibly empty) segment for the empty
string. -/
def splitComma : List Char → List (List Char)
  | [] => [[]]
  | c :: cs =>
    match splitComma cs with
    | [] => [[]]
    | seg :: segs => if c = ',' then [] :: seg :: segs else (c :: seg) :: segs

/-- Line 187: `country_df['main_country'] = country_df['country'].str.split(',').str[0]` -
the first comma-separated segment of the raw country string, untouched
otherwise (no whitespace trimming in the source), null when the raw string
is null. -/
def main_country (r : Record) : Option String :=
  r.country.map (fun s => String.mk ((splitComma s.data).headD []))

/-- Whitespace trimming of both ends on the character level. -/
def trimChars (cs : List Char) : List Char :=
  ((cs.dropWhile Char.isWhitespace).reverse.dropWhile Char.isWhitespace).reverse

/-- Modelled from the spec's words for comparison with `main_country` (§3 /
§4.1: "primary_country = first split segment trimmed, or null if absent"):
the first segment with surrounding whitespace trimmed. -/
def main_country_spec (r : Record) : Option String :=
  r.country.map (fun s => String.mk (trimChars ((splitComma s.data).headD [])))

/-- Incrementing the entry of key `v` in an association list of counts,
appending a fresh entry `(v, 1)` when the key is absent. -/
def bump {α : Type} [DecidableEq α] (v : α) : List (α × Nat) → List (α × Nat)
  | [] => [(v, 1)]
  | p :: l => if p.1 = v then (p.1, p.2 + 1) :: l else p :: bump v l

/-- One step of counting a nullable column: null values are skipped
(pandas `value_counts` drops NaN by default). -/
def tallyStep {α : Type} [DecidableEq α] (acc : List (α × Nat)) (x : Option α) :
    List (α × Nat) :=
  match x with
  | none => acc
  | some v => bump v acc

/-- Group-and-count of a nullable column, null values dropped. -/
def tally {α : Type} [DecidableEq α] (xs : List (Option α)) : List (α × Nat) :=
  xs.foldl tallyStep []

/-- Count-descending comparison on count entries, for the sort inside
`value_counts`. -/
def countGe {α : Type} (p q : α × Nat) : Prop := q.2 ≤ p.2

instance {α : Type} : DecidableRel (countGe (α := α)) :=
  fun p q => inferInstanceAs (Decidable (q.2 ≤ p.2))

instance {α : Type} : IsTotal (α × Nat) countGe :=
  ⟨fun p q => (Nat.le_total q.2 p.2).imp (fun h => h) (fun h => h)⟩

instance {α : Type} : IsTrans (α × Nat) countGe :=
  ⟨fun _ _ _ h1 h2 => Nat.le_trans h2 h1⟩

/-- Pandas `Series.value_counts()`: counts of the distinct non-null values,
sorted by count descending (tie order left unspecified by the source; the
model uses a stable sort). -/
def value_counts {α : Type} [DecidableEq α] (xs : List (Option α)) : List (α × Nat) :=
  List.insertionSort countGe (tally xs)

/-- Line 125: `top_genres = filtered_df['listed_in'].value_counts().head(10)`.
The counted values are the whole raw comma-separated genre strings. -/
def top_genres (filtered : List Record) : List (String × Nat) :=
  (value_counts (filtered.map (fun r => r.listed_in))).take 10

/-- Line 168: `ratings_count = filtered_df['rating'].value_counts().head(10)`. -/
def ratings_count (filtered : List Record) : List (String × Nat) :=
  (value_counts (filtered.map (fun r => r.rating))).take 10

/-- Lines 189-190: `country_counts = country_df['main_country'].value_counts().reset_index()`
(no truncation). -/
def country_counts (filtered : List Record) : List (String × Nat) :=
  value_counts (filtered.map main_country)

/-- Descending comparison of optional durations, nulls last: the order
`sort_values('duration_mins', ascending=False)` (line 156) establishes,
with pandas placing NaN at the end (`na_position='last'`). -/
def optDescLe (x y : Option Nat) : Bool :=
  match x, y with
  | some a, some b => decide (b ≤ a)
  | some _, none => true
  | none, some _ => false
  | none, none => true

/-- Record order used by `longest_movies`: duration descending, null
durations after every non-null one. -/
def DurLe (a b : Record) : Prop := optDescLe (duration_mins a) (duration_mins b) = true

instance : DecidableRel DurLe :=
  fun a b => inferInstanceAs (Decidable (optDescLe (duration_mins a) (duration_mins b) = true))

/-- Line 156: `longest_movies = movies_df.sort_values('duration_mins',
ascending=False).head(10)`.  The source's quicksort fixes no order on tied
durations; the model sorts with a stable sort, and no theorem below
depends on the order of ties. -/
def longest_movies (filtered : List Record) : List Record :=
  (List.insertionSort DurLe (movies_df filtered)).take 10

/-- The non-null entries of the `duration_mins` column of `movies_df`:
what `Series.mean()` averages (skipna semantics). -/
def movie_durations (filtered : List Record) : List Nat :=
  (movies_df filtered).filterMap duration_mins

/-- Pandas `Series.mean()`: the arithmetic mean of the non-null values,
NaN (modelled as `none`) when there is none. -/
def mean (xs : List Nat) : Option ℚ :=
  if xs.length = 0 then none else some ((xs.foldl (fun a x => a + x) 0 : Nat) / (xs.length : ℚ))

/-- Line 159: `avg_duration = movies_df['duration_mins'].mean()`. -/
def avg_duration (filtered : List Record) : Option ℚ :=
  mean (movie_durations filtered)

/-- Line 160: `st.metric("Average Movie Duration (minutes)", f"{avg_duration:.2f}")`.
The outer layer records whether the metric is rendered at all (`none`
would be an absent metric, which the source never produces: the call is
unconditional inside the duration tab); the inner layer is the rendered
value, `none` for the float NaN that `f"{...:.2f}"` prints as `"nan"`. -/
def avg_duration_report (filtered : List Record) : Option (Option ℚ) :=
  some (avg_duration filtered)

/-- Ascending order on year keys for `groupby('release_year')` output. -/
def yearKeyLe (p q : Int × Nat) : Prop := p.1 ≤ q.1

instance : DecidableRel yearKeyLe :=
  fun p q => inferInstanceAs (Decidable (p.1 ≤ q.1))

/-- Line 102: `titles_per_year = filtered_df.groupby('release_year').size()` -
counts per distinct year, keys ascending, null years dropped. -/
def titles_per_year (filtered : List Record) : List (Int × Nat) :=
  List.insertionSort yearKeyLe (tally (filtered.map (fun r => r.release_year)))

/-- Line 113: `type_counts = filtered_df['type'].value_counts()`. -/
def type_counts (filtered : List Record) : List (String × Nat) :=
  value_counts (filtered.map (fun r => some r.type))

/-- Line 139: `text = " ".join(filtered_df['title'].dropna())`. -/
def wordcloud_text (filtered : List Record) : String :=
  String.intercalate " " (filtered.filterMap (fun r => r.title))

/-- The aggregate views one filter-and-aggregate pass of the dashboard
computes over the filtered frame. -/
structure AggResult where
  titles_per_year : List (Int × Nat)
  type_counts : List (String × Nat)
  top_genres : List (String × Nat)
  wordcloud_text : String
  longest_movies : List Record
  avg_duration_report : Option (Option ℚ)
  ratings_count : List (String × Nat)
  country_counts : List (String × Nat)

/-- All aggregate views over one filtered frame. -/
def aggregate (filtered : List Record) : AggResult :=
  { titles_per_year := titles_per_year filtered
    type_counts := type_counts filtered
    top_genres := top_genres filtered
    wordcloud_text := wordcloud_text filtered
    longest_movies := longest_movies filtered
    avg_duration_report := avg_duration_report filtered
    ratings_count := ratings_count filtered
    country_counts := country_counts filtered }

/-- One user interaction: filter the loaded frame, aggregate the result.
The source builds the filtered frame as a new dataframe (line 70) and
copies it before adding any derived column (`.copy()` at lines 154 and
186), so the loaded frame is what the store still holds after the pass;
the pair returned is (the aggregates, the store afterwards). -/
def run_pass (df : List Record) (c : Criteria) : AggResult × List Record :=
  (aggregate (filtered_df df c), df)

/-- Total count booked under key `k` in an association list of counts. -/
def keyCount {α : Type} [DecidableEq α] (acc : List (α × Nat)) (k : α) : Nat :=
  (acc.map (fun p => if p.1 = k then p.2 else 0)).sum

/-- Sum of all counts of an association list of counts. -/
def sumCounts {α : Type} (acc : List (α × Nat)) : Nat :=
  (acc.map Prod.snd).sum

theorem keyCount_nil {α : Type} [DecidableEq α] (k : α) : keyCount ([] : List (α × Nat)) k = 0 := rfl

theorem keyCount_cons {α : Type} [DecidableEq α] (p : α × Nat) (l : List (α × Nat)) (k : α) :
    keyCount (p :: l) k = (if p.1 = k then p.2 else 0) + keyCount l k := by
  simp [keyCount]

theorem keyCount_eq_zero {α : Type} [DecidableEq α] {acc : List (α × Nat)} {k : α}
    (h : k ∉ acc.map Prod.fst) : keyCount acc k = 0 := by
  induction acc with
  | nil => rfl
  | cons p l ih =>
    simp only [List.map_cons, List.mem_cons] at h
    push_neg at h
    rw [keyCount_cons, if_neg (fun e => h.1 e.symm), ih h.2]

theorem mem_keyCount {α : Type} [DecidableEq α] {acc : List (α × Nat)}
    (hn : (acc.map Prod.fst).Nodup) {p : α × Nat} (hp : p ∈ acc) :
    p.2 = keyCount acc p.1 := by
  induction acc with
  | nil => cases hp
  | cons q l ih =>
    simp only [List.map_cons, List.nodup_cons] at hn
    rcases List.mem_cons.mp hp with rfl | hl
    · rw [keyCount_cons, if_pos rfl, keyCount_eq_zero hn.1]
      omega
    · have hne : q.1 ≠ p.1 := by
        intro e
        exact hn.1 (e ▸ List.mem_map.mpr ⟨p, hl, rfl⟩)
      rw [keyCount_cons, if_neg hne, ih hn.2 hl, Nat.zero_add]

theorem keyCount_bump_self {α : Type} [DecidableEq α] (v : α) (acc : List (α × Nat)) :
    keyCount (bump v acc) v = keyCount acc v + 1 := by
  induction acc with
  | nil => simp [bump, keyCount]
  | cons p l ih =>
    by_cases h : p.1 = v
    · simp only [bump, if_pos h, keyCount_cons, if_pos h]
      omega
    · simp only [bump, if_neg h, keyCount_cons, if_neg h, ih]
      omega

theorem keyCount_bump_ne {α : Type} [DecidableEq α] {k v : α} (hk : k ≠ v)
    (acc : List (α × Nat)) : keyCount (bump v acc) k = keyCount acc k := by
  have hvk : ¬ v = k := fun e => hk e.symm
  induction acc with
  | nil => simp [bump, keyCount, hvk]
  | cons p l ih =>
    by_cases h : p.1 = v
    · have : p.1 ≠ k := fun e => hk (e.symm.trans h)
      simp only [bump, if_pos h, keyCount_cons, if_neg this]
    · simp only [bump, if_neg h, keyCount_cons, ih]

theorem bump_keys {α : Type} [DecidableEq α] (v : α) (acc : List (α × Nat)) :
    (bump v acc).map Prod.fst =
      if v ∈ acc.map Prod.fst then acc.map Prod.fst else acc.map Prod.fst ++ [v] := by
  induction acc with
  | nil => simp [bump]
  | cons p l ih =>
    by_cases h : p.1 = v
    · simp [bump, if_pos h, h]
    · have hvp : ¬ v = p.1 := fun e => h e.symm
      by_cases hm : v ∈ l.map Prod.fst
      · simp [bump, if_neg h, ih, hm, hvp]
      · simp [bump, if_neg h, ih, hm, hvp]

theorem nodup_keys_bump {α : Type} [DecidableEq α] (v : α) {acc : List (α × Nat)}
    (hn : (acc.map Prod.fst).Nodup) : ((bump v acc).map Prod.fst).Nodup := by
  rw [bump_keys]
  by_cases hm : v ∈ acc.map Prod.fst
  · simpa [hm] using hn
  · simp [hm, List.nodup_append, hn]

theorem pos_bump {α : Type} [DecidableEq α] (v : α) {acc : List (α × Nat)}
    (hp : ∀ q ∈ acc, 0 < q.2) : ∀ q ∈ bump v acc, 0 < q.2 := by
  induction acc with
  | nil =>
    intro q hq
    simp only [bump, List.mem_singleton] at hq
    subst hq
    exact Nat.one_pos
  | cons p l ih =>
    intro q hq
    by_cases h : p.1 = v
    · simp only [bump, if_pos h, List.mem_cons] at hq
      rcases hq with rfl | hl
      · exact Nat.succ_pos p.2
      · exact hp q (List.mem_cons_of_mem p hl)
    · simp only [bump, if_neg h, List.mem_cons] at hq
      rcases hq with rfl | hl
      · exact hp q (List.mem_cons_self _ _)
      · exact ih (fun x hx => hp x (List.mem_cons_of_mem p hx)) q hl

theorem sumCounts_bump {α : Type} [DecidableEq α] (v : α) (acc : List (α × Nat)) :
    sumCounts (bump v acc) = sumCounts acc + 1 := by
  induction acc with
  | nil => simp [bump, sumCounts]
  | cons p l ih =>
    by_cases h : p.1 = v
    · simp only [bump, if_pos h, sumCounts, List.map_cons, List.sum_cons]
      omega
    · simp only [bump, if_neg h, sumCounts, List.map_cons, List.sum_cons] at ih ⊢
      omega

theorem keyCount_foldl {α : Type} [DecidableEq α] (xs : List (Option α)) :
    ∀ (acc : List (α × Nat)) (k : α),
      keyCount (xs.foldl tallyStep acc) k =
        keyCount acc k + xs.countP (fun x => decide (x = some k)) := by
  induction xs with
  | nil => intro acc k; simp
  | cons x xs ih =>
    intro acc k
    cases x with
    | none =>
      rw [List.foldl_cons, List.countP_cons]
      simp [tallyStep, ih]
    | some v =>
      rw [List.foldl_cons, List.countP_cons]
      show keyCount (xs.foldl tallyStep (bump v acc)) k = _
      rw [ih]
      by_cases hv : v = k
      · subst hv
        rw [keyCount_bump_self]
        simp
        omega
      · rw [keyCount_bump_ne (fun e => hv e.symm)]
        simp [hv]

theorem keyCount_tally {α : Type} [DecidableEq α] (xs : List (Option α)) (k : α) :
    keyCount (tally xs) k = xs.countP (fun x => decide (x = some k)) := by
  rw [tally, keyCount_foldl, keyCount_nil, Nat.zero_add]

theorem nodup_keys_foldl {α : Type} [DecidableEq α] (xs : List (Option α)) :
    ∀ acc : List (α × Nat), (acc.map Prod.fst).Nodup →
      ((xs.foldl tallyStep acc).map Prod.fst).Nodup := by
  induction xs with
  | nil => intro acc h; simpa using h
  | cons x xs ih =>
    intro acc h
    cases x with
    | none => exact ih acc h
    | some v => exact ih (bump v acc) (nodup_keys_bump v h)

theorem nodup_keys_tally {α : Type} [DecidableEq α] (xs : List (Option α)) :
    ((tally xs).map Prod.fst).Nodup :=
  nodup_keys_foldl xs [] (by simp)

theorem pos_foldl {α : Type} [DecidableEq α] (xs : List (Option α)) :
    ∀ acc : List (α × Nat), (∀ q ∈ acc, 0 < q.2) →
      ∀ q ∈ xs.foldl tallyStep acc, 0 < q.2 := by
  induction xs with
  | nil => intro acc h; simpa using h
  | cons x xs ih =>
    intro acc h
    cases x with
    | none => exact ih acc h
    | some v => exact ih (bump v acc) (pos_bump v h)

theorem pos_tally {α : Type} [DecidableEq α] (xs : List (Option α)) :
    ∀ q ∈ tally xs, 0 < q.2 :=
  pos_foldl xs [] (by simp)

theorem sumCounts_foldl {α : Type} [DecidableEq α] (xs : List (Option α)) :
    ∀ acc : List (α × Nat),
      sumCounts (xs.foldl tallyStep acc) = sumCounts acc + xs.countP (fun x => x.isSome) := by
  induction xs with
  | nil => intro acc; simp
  | cons x xs ih =>
    intro acc
    cases x with
    | none =>
      rw [List.foldl_cons, List.countP_cons]
      simp [tallyStep, ih]
    | some v =>
      rw [List.foldl_cons, List.countP_cons]
      show sumCounts (xs.foldl tallyStep (bump v acc)) = _
      rw [ih, sumCounts_bump]
      simp
      omega

theorem sumCounts_tally {α : Type} [DecidableEq α] (xs : List (Option α)) :
    sumCounts (tally xs) = xs.countP (fun x => x.isSome) := by
  have h := sumCounts_foldl xs []
  simpa [tally, sumCounts] using h

theorem mem_value_counts {α : Type} [DecidableEq α] {xs : List (Option α)} {p : α × Nat} :
    p ∈ value_counts xs ↔ p ∈ tally xs :=
  (List.perm_insertionSort countGe (tally xs)).mem_iff

theorem sumCounts_value_counts {α : Type} [DecidableEq α] (xs : List (Option α)) :
    sumCounts (value_counts xs) = sumCounts (tally xs) :=
  ((List.perm_insertionSort countGe (tally xs)).map Prod.snd).sum_eq

theorem mem_tally_count {α : Type} [DecidableEq α] {xs : List (Option α)} {p : α × Nat}
    (hp : p ∈ tally xs) : p.2 = xs.countP (fun x => decide (x = some p.1)) := by
  rw [← keyCount_tally]
  exact mem_keyCount (nodup_keys_tally xs) hp

theorem mem_tally_source {α : Type} [DecidableEq α] {xs : List (Option α)} {p : α × Nat}
    (hp : p ∈ tally xs) : some p.1 ∈ xs := by
  have hpos : 0 < xs.countP (fun x => decide (x = some p.1)) :=
    mem_tally_count hp ▸ pos_tally xs p hp
  obtain ⟨a, ha, he⟩ := List.countP_pos_iff.mp hpos
  cases of_decide_eq_true he
  exact ha

theorem sum_take_le (l : List Nat) (n : Nat) : (l.take n).sum ≤ l.sum := by
  conv_rhs => rw [← List.take_append_drop n l]
  rw [List.sum_append]
  omega

instance : IsTotal Record DurLe :=
  ⟨fun a b => by
    unfold DurLe
    cases duration_mins a <;> cases duration_mins b <;> simp [optDescLe] <;> omega⟩

instance : IsTrans Record DurLe :=
  ⟨fun a b c h1 h2 => by
    unfold DurLe at h1 h2 ⊢
    revert h1 h2
    cases duration_mins a <;> cases duration_mins b <;> cases duration_mins c <;>
      simp [optDescLe] <;> omega⟩

theorem splitComma_ne_nil (cs : List Char) : splitComma cs ≠ [] := by
  cases cs with
  | nil => simp [splitComma]
  | cons c cs =>
    simp only [splitComma]
    cases h : splitComma cs with
    | nil => simp
    | cons seg segs =>
      by_cases hc : c = ',' <;> simp [hc]

theorem splitComma_headD (cs : List Char) :
    (splitComma cs).headD [] = cs.takeWhile (fun c => decide (c ≠ ',')) := by
  induction cs with
  | nil => rfl
  | cons c cs ih =>
    obtain ⟨seg, segs, hss⟩ := List.exists_cons_of_ne_nil (splitComma_ne_nil cs)
    by_cases hc : c = ','
    · simp [splitComma, hss, hc, List.takeWhile_cons]
    · rw [hss] at ih
      simp only [List.headD_cons] at ih
      simp [splitComma, hss, hc, List.takeWhile_cons, ih]

theorem length_filter_le_of_imp {α : Type} {p q : α → Bool}
    (h : ∀ a, p a = true → q a = true) :
    ∀ l : List α, (l.filter p).length ≤ (l.filter q).length := by
  intro l
  induction l with
  | nil => simp
  | cons a l ih =>
    by_cases hp : p a = true
    · rw [List.filter_cons_of_pos hp, List.filter_cons_of_pos (h a hp)]
      simpa using ih
    · rw [List.filter_cons_of_neg (by simpa using hp)]
      cases hq : q a with
      | false => rw [List.filter_cons_of_neg (by simp [hq])]; exact ih
      | true =>
        rw [List.filter_cons_of_pos hq]
        exact Nat.le_succ_of_le ih

/-- A movie whose raw genre string lists two genres. -/
def exMovieDC : Record :=
  { title := some "A", type := "Movie", release_year := some 2010,
    listed_in := some "Drama, Comedy", country := none, rating := some "PG",
    duration := some "90 min" }

/-- A movie with a rating outside the example rating selection. -/
def exMovieR : Record :=
  { title := some "B", type := "Movie", release_year := some 2012,
    listed_in := none, country := none, rating := some "R",
    duration := some "100 min" }

/-- A movie whose raw duration string has no digits. -/
def exMovieNoDur : Record :=
  { title := some "U", type := "Movie", release_year := some 2010,
    listed_in := none, country := none, rating := none,
    duration := some "Unknown" }

/-- A TV show whose raw duration string starts with a parsable integer. -/
def exTVShow : Record :=
  { title := some "C", type := "TV Show", release_year := some 2020,
    listed_in := none, country := none, rating := none,
    duration := some "2 Seasons" }

/-- A record whose raw country string has whitespace around the comma. -/
def exFrance : Record :=
  { title := some "F", type := "Movie", release_year := some 2010,
    listed_in := none, country := some "France , India", rating := none,
    duration := none }

/-- Criteria matching both content types and the 2000-2020 year range. -/
def exCritAll : Criteria :=
  { type_filter := ["Movie", "TV Show"], year_filter := (2000, 2020),
    rating_filter := ["PG", "R"] }

/-- A tightening of `exCritAll` in every category. -/
def exCritNarrow : Criteria :=
  { type_filter := ["Movie"], year_filter := (2005, 2015), rating_filter := ["PG"] }

/-- Criteria whose rating selection allows only "PG". -/
def exCritPG : Criteria :=
  { type_filter := ["Movie", "TV Show"], year_filter := (2000, 2020),
    rating_filter := ["PG"] }

/-- C1 counterexample: on a one-record catalog whose record lists the genres
"Drama, Comedy", the top-genres view has a single combined bucket
"Drama, Comedy" with count 1, and no "Drama" bucket - the record does not
contribute 1 to each individual genre as the claim states. -/
theorem C1_combined_bucket_cex :
    top_genres (filtered_df [exMovieDC] exCritAll) = [("Drama, Comedy", 1)] ∧
    ("Drama", 1) ∉ top_genres (filtered_df [exMovieDC] exCritAll) := by
  decide

/-- C1 (amended): the top-genres aggregation counts whole raw genre strings,
one increment per record to the bucket keyed by the record's full
comma-separated `listed_in` value: every entry of the view counts exactly
the filtered records whose whole raw genre string equals the entry's key. -/
theorem C1_top_genres_full_string_counts (df : List Record) (c : Criteria)
    (p : String × Nat) (hp : p ∈ top_genres (filtered_df df c)) :
    p.2 = ((filtered_df df c).filter (fun r => r.listed_in = some p.1)).length := by
  have ht : p ∈ tally ((filtered_df df c).map (fun r => r.listed_in)) :=
    mem_value_counts.mp (List.mem_of_mem_take hp)
  rw [mem_tally_count ht, List.countP_map, ← List.countP_eq_length_filter]
  rfl

/-- C1 witness: the amended count theorem applied to the combined bucket of
the one-record example. -/
theorem C1_top_genres_full_string_counts_witness :
    (1 : Nat) =
      ((filtered_df [exMovieDC] exCritAll).filter
        (fun r => r.listed_in = some "Drama, Comedy")).length :=
  C1_top_genres_full_string_counts [exMovieDC] exCritAll ("Drama, Comedy", 1) (by decide)

/-- C2: the rating criterion is dead in the source - the sidebar collects
`rating_filter` (line 61) but the dataframe mask (lines 70-73) uses only type
and year, so a record whose rating is outside a non-empty, proper rating
selection still appears in the filtered view. -/
theorem C2_rating_criterion_ignored :
    exCritPG.rating_filter = ["PG"] ∧
    exMovieR.rating = some "R" ∧
    "R" ∉ exCritPG.rating_filter ∧
    exMovieR ∈ filtered_df [exMovieDC, exMovieR] exCritPG := by
  decide

/-- C3 counterexample: a filtered set whose only movie has an unparsable
duration - the average-duration metric is still rendered (the report is not
`none`), with the NaN value that `f"{...:.2f}"` prints as "nan". -/
theorem C3_nan_metric_cex :
    movie_durations (filtered_df [exMovieNoDur] exCritAll) = [] ∧
    avg_duration_report (filtered_df [exMovieNoDur] exCritAll) = some none := by
  decide

/-- C3 (amended): when no filtered movie has a parsable duration (the empty
set included), the source still renders the average-duration metric, with
the NaN mean - the aggregate is reported present with value NaN, never
absent and never zero. -/
theorem C3_avg_nan_not_absent (f : List Record) (h : movie_durations f = []) :
    avg_duration_report f = some none := by
  simp [avg_duration_report, avg_duration, mean, h]

/-- C3 witness: the amended theorem at the empty catalog. -/
theorem C3_avg_nan_not_absent_witness :
    avg_duration_report (filtered_df [] exCritAll) = some none :=
  C3_avg_nan_not_absent (filtered_df [] exCritAll) (by decide)

/-- C4 counterexample: with one filtered movie whose duration string has no
digits, `longest_movies` returns that record even though its
`duration_mins` is null - the claim that every element has a non-null
duration fails. -/
theorem C4_null_duration_in_longest_cex :
    longest_movies (filtered_df [exMovieNoDur] exCritAll) = [exMovieNoDur] ∧
    duration_mins exMovieNoDur = none := by
  decide

/-- C4 (amended): every element of `longest_movies` is a Movie record of the
filtered view, at most 10 records are returned (the source fixes n = 10),
and the result is ordered by duration descending with null durations placed
last - but movies whose duration is null are included when fewer than 10
filtered movies have a parsable duration. -/
theorem C4_longest_movies_shape (df : List Record) (c : Criteria) :
    (∀ r ∈ longest_movies (filtered_df df c),
        r ∈ filtered_df df c ∧ r.type = "Movie") ∧
    (longest_movies (filtered_df df c)).length ≤ 10 ∧
    (longest_movies (filtered_df df c)).Sorted DurLe := by
  refine ⟨?_, ?_, ?_⟩
  · intro r hr
    have hs : r ∈ List.insertionSort DurLe (movies_df (filtered_df df c)) :=
      List.mem_of_mem_take hr
    have hm : r ∈ movies_df (filtered_df df c) :=
      (List.perm_insertionSort DurLe _).mem_iff.mp hs
    obtain ⟨hin, hb⟩ := List.mem_filter.mp hm
    exact ⟨hin, by simpa using hb⟩
  · exact List.length_take_le 10 _
  · exact List.Pairwise.sublist (List.take_sublist 10 _) (List.sorted_insertionSort DurLe _)

/-- C5 counterexample: for the raw country string "France , India" the
source derives the untrimmed first segment "France " (with a trailing
blank), not the trimmed "France" the claim states. -/
theorem C5_untrimmed_cex :
    main_country exFrance = some "France " ∧
    main_country_spec exFrance = some "France" ∧
    main_country exFrance ≠ main_country_spec exFrance := by
  decide

/-- C5 (amended): the derived primary country is the first segment of the
raw country string split on the comma, with no whitespace trimming, and is
null exactly when the raw country string is null. -/
theorem C5_main_country_untrimmed (r : Record) :
    (main_country r = none ↔ r.country = none) ∧
    ∀ s, r.country = some s →
      main_country r = some (String.mk (s.data.takeWhile (fun c => decide (c ≠ ',')))) := by
  constructor
  · cases h : r.country <;> simp [main_country, h]
  · intro s hs
    have hv : main_country r = some (String.mk ((splitComma s.data).headD [])) := by
      unfold main_country
      rw [hs]
      rfl
    rw [hv, splitComma_headD]

/-- C6: a record of the filtered view always has a non-null release year
lying inclusively between the slider bounds; in particular a record with a
null release year never passes the year criterion. -/
theorem C6_year_range_inclusive (df : List Record) (c : Criteria) (r : Record)
    (h : r ∈ filtered_df df c) :
    ∃ y, r.release_year = some y ∧ c.year_filter.1 ≤ y ∧ y ≤ c.year_filter.2 := by
  obtain ⟨-, hb⟩ := List.mem_filter.mp h
  rw [Bool.and_eq_true] at hb
  cases hy : r.release_year with
  | none =>
    rw [hy] at hb
    exact absurd hb.2 (by simp [between])
  | some y =>
    rw [hy] at hb
    have hb2 := hb.2
    simp only [between, Bool.and_eq_true, decide_eq_true_eq] at hb2
    exact ⟨y, rfl, hb2.1, hb2.2⟩

/-- C6 witness: the year-range theorem at a concrete record of a concrete
filtered view. -/
theorem C6_year_range_inclusive_witness :
    ∃ y, exMovieDC.release_year = some y ∧
      exCritAll.year_filter.1 ≤ y ∧ y ≤ exCritAll.year_filter.2 :=
  C6_year_range_inclusive [exMovieDC] exCritAll exMovieDC (by decide)

/-- C7: filtering is monotone in the criteria the source supports - shrinking
the type selection, shrinking the rating selection (which the mask ignores
anyway) and narrowing the year range never increases the size of the
filtered view. -/
theorem C7_filter_monotone (df : List Record) (c c' : Criteria)
    (ht : ∀ t ∈ c'.type_filter, t ∈ c.type_filter)
    (hr : ∀ t ∈ c'.rating_filter, t ∈ c.rating_filter)
    (hlo : c.year_filter.1 ≤ c'.year_filter.1)
    (hhi : c'.year_filter.2 ≤ c.year_filter.2) :
    (filtered_df df c').length ≤ (filtered_df df c).length := by
  unfold filtered_df
  apply length_filter_le_of_imp
  intro r hpred
  rw [Bool.and_eq_true] at hpred ⊢
  refine ⟨?_, ?_⟩
  · exact List.elem_iff.mpr (ht _ (List.elem_iff.mp hpred.1))
  · have hb := hpred.2
    cases hy : r.release_year with
    | none =>
      rw [hy] at hb
      exact absurd hb (by simp [between])
    | some y =>
      rw [hy] at hb
      simp only [between, Bool.and_eq_true, decide_eq_true_eq] at hb ⊢
      omega

/-- C7 witness: monotonicity applied to a concrete catalog and a concrete
tightening of every criteria category. -/
theorem C7_filter_monotone_witness :
    (filtered_df [exMovieDC, exMovieR, exTVShow] exCritNarrow).length ≤
      (filtered_df [exMovieDC, exMovieR, exTVShow] exCritAll).length :=
  C7_filter_monotone [exMovieDC, exMovieR, exTVShow] exCritAll exCritNarrow
    (by decide) (by decide) (by decide) (by decide)

/-- C8: one filter-then-aggregate pass leaves the loaded catalog unchanged,
a second pass with the same criteria over the unchanged catalog produces the
same aggregates, and the filtered view consists of records of the store
(a view, not new data). -/
theorem C8_pass_pure (df : List Record) (c : Criteria) :
    (run_pass df c).2 = df ∧
    (run_pass ((run_pass df c).2) c).1 = (run_pass df c).1 ∧
    ∀ r ∈ filtered_df df c, r ∈ df :=
  ⟨rfl, rfl, fun _ hr => (List.mem_filter.mp hr).1⟩

/-- C9: a record whose content type is "TV Show" never receives a
`duration_mins` value - the column is computed only on the movie-only
frame - whatever its raw duration string holds. -/
theorem C9_tvshow_duration_none (r : Record) (h : r.type = "TV Show") :
    duration_minutes r = none := by
  simp [duration_minutes, h]

/-- C9 witness: the TV-show record with duration string "2 Seasons". -/
theorem C9_tvshow_duration_none_witness : duration_minutes exTVShow = none :=
  C9_tvshow_duration_none exTVShow rfl

/-- A movie record carrying only a rating, for the truncation counterexample. -/
def exRated (s : String) : Record :=
  { title := none, type := "Movie", release_year := some 2010,
    listed_in := none, country := none, rating := some s, duration := none }

/-- Eleven records with eleven distinct non-null ratings. -/
def ex11 : List Record :=
  ["a", "b", "c", "d", "e", "f", "g", "h", "i", "j", "k"].map exRated

/-- C10 counterexample: with eleven records of distinct non-null ratings,
the rendered ratings distribution is truncated to ten entries, so its
counts sum to 10 while eleven records have a non-null rating. -/
theorem C10_ratings_sum_cex :
    ((ratings_count (filtered_df ex11 exCritAll)).map Prod.snd).sum = 10 ∧
    (filtered_df ex11 exCritAll).countP (fun r => r.rating.isSome) = 11 := by
  decide

/-- C10 (amended): null-valued records contribute to no bucket - every
bucket of the ratings and country distributions stems from a record with
that non-null value; the (untruncated) country distribution's counts sum
exactly to the number of records with a non-null derived country, while the
ratings distribution, truncated to ten entries, sums to at most the number
of records with a non-null rating (with equality only when at most ten
distinct ratings occur). -/
theorem C10_null_values_uncounted (f : List Record) :
    (∀ p ∈ ratings_count f, ∃ r ∈ f, r.rating = some p.1) ∧
    (∀ p ∈ country_counts f, ∃ r ∈ f, main_country r = some p.1) ∧
    ((country_counts f).map Prod.snd).sum = f.countP (fun r => (main_country r).isSome) ∧
    ((ratings_count f).map Prod.snd).sum ≤ f.countP (fun r => r.rating.isSome) := by
  refine ⟨?_, ?_, ?_, ?_⟩
  · intro p hp
    have ht := mem_value_counts.mp (List.mem_of_mem_take hp)
    obtain ⟨r, hr, he⟩ := List.mem_map.mp (mem_tally_source ht)
    exact ⟨r, hr, he⟩
  · intro p hp
    have ht := mem_value_counts.mp hp
    obtain ⟨r, hr, he⟩ := List.mem_map.mp (mem_tally_source ht)
    exact ⟨r, hr, he⟩
  · show sumCounts (value_counts (f.map main_country)) = _
    rw [sumCounts_value_counts, sumCounts_tally, List.countP_map]
    rfl
  · show (((value_counts (f.map (fun r => r.rating))).take 10).map Prod.snd).sum ≤ _
    rw [List.map_take]
    refine le_trans (sum_take_le _ 10) ?_
    have h2 : sumCounts (value_counts (f.map (fun r => r.rating)))
        = f.countP (fun r => r.rating.isSome) := by
      rw [sumCounts_value_counts, sumCounts_tally, List.countP_map]
      rfl
    exact le_of_eq h2
